import Mathlib

/-!
Shallow embedding of ripper.py (DrSLDR/ripper): a batch-downloading
framework with a parent-delegation chain (GenericRipper forwarding to a
Controller), a filesystem descend/ascend cursor with a dry-run gate, a
JSON configuration bootstrap, and a numeric log-level mapping.

The filesystem is modeled as a current-directory cursor (a list of path
components) together with the sets of directory paths and regular-file
paths, which is all the source touches through os.path.isdir, os.mkdir
and os.chdir.  Python exceptions are modeled with an explicit error type.
-/

deriving instance DecidableEq for Except

/-- Python exceptions that the modeled code can raise.
The constructor configurationError never occurs in the source; it models
the ConfigurationError that the specification proposes for null-parent
invocation, so that the source behavior can be compared against it. -/
inductive PyError where
  | attributeError
  | fileExistsError
  | configurationError
deriving DecidableEq, Repr

/-- Model of an HTTP response object (requests): status code and body. -/
structure Response where
  statusCode : Nat
  content : String
deriving DecidableEq, Repr

/-- Opaque model of a parsed HTML document (lxml). -/
structure HtmlTree where
  source : String
deriving DecidableEq, Repr

/-- Model of lxml html.fromstring applied to the response content:
an opaque parse, injective in its input. -/
def html_fromstring (content : String) : HtmlTree :=
  HtmlTree.mk content

/-- Python values returned by the ripper methods: None, a bool,
a raw response page, or a parsed tree. -/
inductive PyVal where
  | none
  | bool (b : Bool)
  | page (r : Response)
  | tree (t : HtmlTree)
deriving DecidableEq, Repr

/-- The flat filesystem model: which paths (component lists, absolute)
are directories and which are regular files. -/
structure FS where
  dirs : List (List String)
  files : List (List String)
deriving DecidableEq, Repr

/-- Controller state relevant to descend and ascend: the dry-run flag,
the process current-directory cursor, and the filesystem. -/
structure CtrlState where
  dryrun : Bool
  cwd : List String
  fs : FS
deriving DecidableEq, Repr

/-- Model of os.path.isdir(name) resolved against the current directory. -/
def os_path_isdir (s : CtrlState) (name : String) : Bool :=
  decide ((s.cwd ++ [name]) ∈ s.fs.dirs)

/-- Whether a path exists at all (as a directory or as a regular file). -/
def pathExists (s : CtrlState) (p : List String) : Bool :=
  decide (p ∈ s.fs.dirs ∨ p ∈ s.fs.files)

/-- Model of os.mkdir(name): raises FileExistsError when the path already
exists (as a directory or as a file); otherwise records a new directory. -/
def os_mkdir (s : CtrlState) (name : String) : Except PyError CtrlState :=
  if pathExists s (s.cwd ++ [name]) then
    Except.error PyError.fileExistsError
  else
    Except.ok { s with fs := { s.fs with dirs := (s.cwd ++ [name]) :: s.fs.dirs } }

/-- Model of os.chdir(name): push one component onto the cursor. -/
def os_chdir (s : CtrlState) (name : String) : CtrlState :=
  { s with cwd := s.cwd ++ [name] }

/-- Model of os.chdir of the parent directory: drop the last component
(at the root it stays at the root, as in Python). -/
def os_chdir_up (s : CtrlState) : CtrlState :=
  { s with cwd := s.cwd.dropLast }

/-- Controller.descend (ripper.py lines 217-245): on a dry run, take no
action and return True; otherwise create the directory if name is not a
directory (os.mkdir may raise FileExistsError), return False if it exists
and ignore_exists is False, and in the remaining cases change into it and
return True. -/
def Controller.descend (s : CtrlState) (name : String) (ignore_exists : Bool) :
    Except PyError (Bool × CtrlState) :=
  if s.dryrun then
    Except.ok (true, s)
  else if ! os_path_isdir s name then
    match os_mkdir s name with
    | Except.error e => Except.error e
    | Except.ok s1 => Except.ok (true, os_chdir s1 name)
  else if ! ignore_exists then
    Except.ok (false, s)
  else
    Except.ok (true, os_chdir s name)

/-- Controller.ascend (ripper.py lines 247-258): no action on a dry run,
otherwise os.chdir one level up. -/
def Controller.ascend (s : CtrlState) : CtrlState :=
  if s.dryrun then s else os_chdir_up s

/-- Controller.fetch (ripper.py lines 200-215): GET the url through the
session; if tree is true, return the parsed tree of the page content,
otherwise return the page object itself.  The session is modeled as a
function from urls to responses. -/
def Controller.fetch (session : String → Response) (url : String) (tree : Bool) : PyVal :=
  let page := session url
  if tree then
    PyVal.tree (html_fromstring page.content)
  else
    PyVal.page page

/-- Controller.descend viewed at the Python value level: the Controller
returns the bool wrapped as a Python value (threading the state). -/
def Controller.descendVal (s : CtrlState) (name : String) (ignore_exists : Bool) :
    Except PyError (PyVal × CtrlState) :=
  match Controller.descend s name ignore_exists with
  | Except.error e => Except.error e
  | Except.ok (b, s1) => Except.ok (PyVal.bool b, s1)

/-- GenericRipper.fetch (ripper.py lines 55-62): evaluates
self.parent.fetch(url, tree) and falls off the end of the function body,
so the call is forwarded but the method itself returns None.  A node with
no parent dereferences None and raises AttributeError. -/
def GenericRipper.fetch (parent : Option (String → Bool → PyVal))
    (url : String) (tree : Bool) : Except PyError PyVal :=
  match parent with
  | Option.none => Except.error PyError.attributeError
  | Option.some pfetch =>
    let _ := pfetch url tree
    Except.ok PyVal.none

/-- GenericRipper.descend (ripper.py lines 64-71): evaluates
self.parent.descend(name, ignore_exists) and falls off the end of the
function body, so the parent effects happen and exceptions propagate, but
the method itself returns None.  A node with no parent dereferences None
and raises AttributeError. -/
def GenericRipper.descend
    (parent : Option (String → Bool → Except PyError (PyVal × CtrlState)))
    (name : String) (ignore_exists : Bool) : Except PyError (PyVal × CtrlState) :=
  match parent with
  | Option.none => Except.error PyError.attributeError
  | Option.some pdescend =>
    match pdescend name ignore_exists with
    | Except.error e => Except.error e
    | Except.ok (_, s1) => Except.ok (PyVal.none, s1)

/-- GenericRipper.ascend (ripper.py lines 73-78): forwards to
self.parent.ascend (which returns None).  A node with no parent
dereferences None and raises AttributeError. -/
def GenericRipper.ascend (parent : Option (CtrlState → CtrlState))
    (s : CtrlState) : Except PyError (PyVal × CtrlState) :=
  match parent with
  | Option.none => Except.error PyError.attributeError
  | Option.some pascend => Except.ok (PyVal.none, pascend s)

/-- Controller.parse_config (ripper.py lines 158-187): open the file
(OSError is caught and None returned), then json.load its contents
(ValueError is caught and None returned), otherwise return the parsed
structure.  File reading and JSON parsing are external collaborators,
modeled as functions returning Option. -/
def Controller.parse_config {α : Type} (openRead : String → Option String)
    (json_load : String → Option α) (conffile : String) : Option α :=
  match openRead conffile with
  | Option.none => Option.none
  | Option.some contents =>
    match json_load contents with
    | Option.none => Option.none
    | Option.some contents1 => Option.some contents1

/-- Opaque model of a requests.Session handle. -/
structure Session where
  mk ::
deriving DecidableEq, Repr

/-- Controller.init_session (ripper.py lines 189-198): creates the session. -/
def Controller.init_session : Session :=
  Session.mk

/-- Outcome of Controller.init: either the process exited with a code
(and in particular no session was ever created), or initialization
completed with the parsed configuration and the created session. -/
inductive InitOutcome (α : Type) where
  | exited (code : Nat)
  | ready (config : α) (session : Session)
deriving DecidableEq, Repr

/-- Controller.init (ripper.py lines 97-124): parses the configuration;
when parsing fails (returns None) it logs critically and exits with
status 1, before the session-creation step; otherwise it creates the
session. -/
def Controller.init {α : Type} (openRead : String → Option String)
    (json_load : String → Option α) (conffile : String) : InitOutcome α :=
  match Controller.parse_config openRead json_load conffile with
  | Option.none => InitOutcome.exited 1
  | Option.some c => InitOutcome.ready c Controller.init_session

/-- logging.CRITICAL, the most severe built-in level of the logging module. -/
def logging_CRITICAL : Nat := 50

/-- logging.ERROR. -/
def logging_ERROR : Nat := 40

/-- logging.WARNING. -/
def logging_WARNING : Nat := 30

/-- logging.INFO. -/
def logging_INFO : Nat := 20

/-- logging.DEBUG. -/
def logging_DEBUG : Nat := 10

/-- The level-selection chain at the top of Controller.__init_log
(ripper.py lines 126-148).  A loglevel outside 0..5 leaves the Python
local unbound (argparse restricts the choice to 0..5); that case is
modeled as Option.none. -/
def Controller.init_log_level (loglevel : Nat) : Option Nat :=
  if loglevel = 0 then Option.some 51
  else if loglevel = 1 then Option.some logging_CRITICAL
  else if loglevel = 2 then Option.some logging_ERROR
  else if loglevel = 3 then Option.some logging_WARNING
  else if loglevel = 4 then Option.some logging_INFO
  else if loglevel = 5 then Option.some logging_DEBUG
  else Option.none

/-- Model of the logging module level filter: a record at level lvl is
emitted exactly when lvl is at least the configured threshold. -/
def log_emits (threshold lvl : Nat) : Bool :=
  decide (threshold ≤ lvl)

/-- A dry-run state for exercising the definitions. -/
def dryState : CtrlState :=
  { dryrun := true, cwd := [], fs := { dirs := [], files := [] } }

/-- A fixed demonstration session: every url yields a 200 page. -/
def demoSession : String → Response :=
  fun _ => { statusCode := 200, content := "<html></html>" }

/-- A live-run state whose root holds one directory named d. -/
def liveDirState : CtrlState :=
  { dryrun := false, cwd := [], fs := { dirs := [["d"]], files := [] } }

/-- A live-run state with an empty filesystem. -/
def liveEmptyState : CtrlState :=
  { dryrun := false, cwd := [], fs := { dirs := [], files := [] } }

/-- The state produced by descending into a fresh d from liveEmptyState. -/
def liveAfterDescend : CtrlState :=
  { dryrun := false, cwd := ["d"], fs := { dirs := [["d"]], files := [] } }

/-- A live-run state whose root holds one regular file named f. -/
def liveFileState : CtrlState :=
  { dryrun := false, cwd := [], fs := { dirs := [], files := [["f"]] } }

/-- A concrete file reader: only the path good.json opens, with contents ok. -/
def goodFS : String → Option String :=
  fun p => if p = "good.json" then Option.some "ok" else Option.none

/-- A concrete JSON-parse collaborator: only the contents ok parse, to 7. -/
def demoLoad : String → Option Nat :=
  fun c => if c = "ok" then Option.some 7 else Option.none

/-- Shape of a successful live-run descend: the new cursor is the old one
extended by the descended name, and the dry-run flag is preserved. -/
theorem descend_live_ok_shape (s s1 : CtrlState) (name : String) (ig : Bool)
    (hlive : s.dryrun = false)
    (hd : Controller.descend s name ig = Except.ok (true, s1)) :
    s1.cwd = s.cwd ++ [name] ∧ s1.dryrun = false := by
  unfold Controller.descend at hd
  rw [hlive] at hd
  simp only [Bool.false_eq_true, if_false] at hd
  split at hd
  · split at hd
    · exact absurd hd (by simp)
    · rename_i s2 heq
      unfold os_mkdir at heq
      split at heq
      · exact absurd heq (by simp)
      · have hs2 : s2 = { s with fs := { s.fs with dirs := (s.cwd ++ [name]) :: s.fs.dirs } } :=
          by exact (Except.ok.injEq _ _).mp heq.symm
        have hs1 : s1 = os_chdir s2 name := by
          have := (Except.ok.injEq _ _).mp hd
          exact (Prod.mk.injEq _ _ _ _).mp this |>.2.symm
        subst hs1
        subst hs2
        exact ⟨rfl, hlive⟩
  · split at hd
    · exact absurd hd (by simp)
    · have hs1 : s1 = os_chdir s name := by
        have := (Except.ok.injEq _ _).mp hd
        exact (Prod.mk.injEq _ _ _ _).mp this |>.2.symm
      subst hs1
      exact ⟨rfl, hlive⟩

/-- C1: the claim says GenericRipper.fetch with a live parent returns the
parent's result; the code forwards the call but has no return statement,
so it returns None while the parent (here a Controller) produced a parsed
tree. -/
theorem c1_generic_fetch_drops_result :
    GenericRipper.fetch (Option.some (Controller.fetch demoSession)) "http://example.com" true
        = Except.ok PyVal.none ∧
      Controller.fetch demoSession "http://example.com" true
        = PyVal.tree (html_fromstring "<html></html>") ∧
      PyVal.tree (html_fromstring "<html></html>") ≠ PyVal.none := by
  refine ⟨rfl, rfl, by decide⟩

/-- C2: the claim says GenericRipper.descend with a live parent returns
the parent's boolean result; the code forwards the call (effects and
exceptions propagate) but has no return statement, so it returns None
while the parent Controller produced True. -/
theorem c2_generic_descend_drops_result :
    GenericRipper.descend (Option.some (Controller.descendVal dryState)) "d" false
        = Except.ok (PyVal.none, dryState) ∧
      Controller.descendVal dryState "d" false = Except.ok (PyVal.bool true, dryState) ∧
      PyVal.bool true ≠ PyVal.none := by
  refine ⟨rfl, rfl, by decide⟩

/-- C3: when dryrun is true, Controller.descend returns True and leaves
the whole state (filesystem and cursor) unchanged, for every name and
either value of ignore_exists. -/
theorem c3_descend_dryrun (s : CtrlState) (name : String) (ig : Bool)
    (h : s.dryrun = true) :
    Controller.descend s name ig = Except.ok (true, s) := by
  unfold Controller.descend
  rw [h]
  simp

/-- Witness for c3_descend_dryrun at a concrete dry-run state. -/
theorem c3_descend_dryrun_witness :
    Controller.descend dryState "d" false = Except.ok (true, dryState) :=
  c3_descend_dryrun dryState "d" false rfl

/-- C4: live-run Controller.descend on a fresh name creates the directory,
changes into it and returns True; on an existing directory it changes into
it and returns True when ignore_exists is true, and takes no action and
returns False when ignore_exists is false. -/
theorem c4_descend_live (s : CtrlState) (name : String) (ig : Bool)
    (hlive : s.dryrun = false) :
    (pathExists s (s.cwd ++ [name]) = false →
      ∃ s1, Controller.descend s name ig = Except.ok (true, s1) ∧
        s1.cwd = s.cwd ++ [name] ∧ (s.cwd ++ [name]) ∈ s1.fs.dirs) ∧
    (os_path_isdir s name = true → ig = true →
      Controller.descend s name ig = Except.ok (true, { s with cwd := s.cwd ++ [name] })) ∧
    (os_path_isdir s name = true → ig = false →
      Controller.descend s name ig = Except.ok (false, s)) := by
  refine ⟨?_, ?_, ?_⟩
  · intro hfresh
    have hmem : (s.cwd ++ [name]) ∉ s.fs.dirs ∧ (s.cwd ++ [name]) ∉ s.fs.files := by
      unfold pathExists at hfresh
      simpa [not_or] using hfresh
    have hnd : os_path_isdir s name = false := by
      unfold os_path_isdir
      simp [hmem.1]
    have hgoal : Controller.descend s name ig =
        Except.ok (true,
          { dryrun := s.dryrun, cwd := s.cwd ++ [name],
            fs := { dirs := (s.cwd ++ [name]) :: s.fs.dirs, files := s.fs.files } }) := by
      unfold Controller.descend os_mkdir os_chdir
      rw [hlive, hnd, hfresh]
      simp
    exact ⟨_, hgoal, rfl, List.mem_cons_self _ _⟩
  · intro hdir hig
    unfold Controller.descend os_chdir
    rw [hlive, hdir, hig]
    simp
  · intro hdir hig
    unfold Controller.descend
    rw [hlive, hdir, hig]
    simp

/-- Witness for c4_descend_live: at a concrete live state with an existing
directory d, descend with ignore_exists false returns False unchanged. -/
theorem c4_descend_live_witness :
    Controller.descend liveDirState "d" false = Except.ok (false, liveDirState) :=
  (c4_descend_live liveDirState "d" false rfl).2.2 (by decide) rfl

/-- C5: after a successful live-run descend, ascend restores the cursor to
exactly its pre-descend location; and on a dry run, ascend changes
nothing regardless of prior calls. -/
theorem c5_ascend_inverts_descend (s s1 : CtrlState) (name : String) (ig : Bool)
    (hlive : s.dryrun = false)
    (hd : Controller.descend s name ig = Except.ok (true, s1)) :
    (Controller.ascend s1).cwd = s.cwd ∧
      ∀ t : CtrlState, t.dryrun = true → Controller.ascend t = t := by
  have hshape := descend_live_ok_shape s s1 name ig hlive hd
  constructor
  · unfold Controller.ascend os_chdir_up
    rw [hshape.2]
    simp [hshape.1]
  · intro t ht
    unfold Controller.ascend
    rw [ht]
    simp

/-- Witness for c5_ascend_inverts_descend at a concrete live run. -/
theorem c5_ascend_inverts_descend_witness :
    (Controller.ascend liveAfterDescend).cwd = ([] : List String) :=
  (c5_ascend_inverts_descend liveEmptyState liveAfterDescend "d" false rfl (by decide)).1

/-- C6: parse_config returns the parsed structure when the file opens and
its contents parse as JSON; when the file cannot be opened, or the
contents do not parse, it returns the failure signal None, and init then
exits the process with status 1 (the session-creation step is never
reached). -/
theorem c6_parse_config_and_exit {α : Type} (openRead : String → Option String)
    (json_load : String → Option α) (path contents : String) (c : α) :
    (openRead path = Option.some contents → json_load contents = Option.some c →
      Controller.parse_config openRead json_load path = Option.some c) ∧
    (openRead path = Option.none →
      Controller.parse_config openRead json_load path = Option.none ∧
      Controller.init openRead json_load path = InitOutcome.exited 1) ∧
    (openRead path = Option.some contents → json_load contents = Option.none →
      Controller.parse_config openRead json_load path = Option.none ∧
      Controller.init openRead json_load path = InitOutcome.exited 1) := by
  refine ⟨?_, ?_, ?_⟩
  · intro hopen hparse
    simp [Controller.parse_config, hopen, hparse]
  · intro hopen
    have hp : Controller.parse_config openRead json_load path = Option.none := by
      simp [Controller.parse_config, hopen]
    refine ⟨hp, ?_⟩
    simp [Controller.init, hp]
  · intro hopen hparse
    have hp : Controller.parse_config openRead json_load path = Option.none := by
      simp [Controller.parse_config, hopen, hparse]
    refine ⟨hp, ?_⟩
    simp [Controller.init, hp]

/-- Witness for c6_parse_config_and_exit: a valid file parses to its
structure, and a missing file makes init exit with status 1. -/
theorem c6_parse_config_and_exit_witness :
    Controller.parse_config goodFS demoLoad "good.json" = Option.some 7 ∧
      Controller.init goodFS demoLoad "missing.json" = InitOutcome.exited 1 :=
  ⟨(c6_parse_config_and_exit goodFS demoLoad "good.json" "ok" 7).1 (by decide) (by decide),
   ((c6_parse_config_and_exit goodFS demoLoad "missing.json" "ok" 7).2.1 (by decide)).2⟩

/-- C7 counterexample: a RipperNode invoked without a live parent does not
fail with the ConfigurationError the claim names (the source never
defines or raises one); it raises AttributeError instead. -/
theorem c7_no_configuration_error :
    GenericRipper.fetch Option.none "http://example.com" true
        ≠ Except.error PyError.configurationError ∧
      GenericRipper.descend Option.none "d" false
        ≠ Except.error PyError.configurationError ∧
      GenericRipper.ascend Option.none dryState
        ≠ Except.error PyError.configurationError := by
  refine ⟨by decide, by decide, by decide⟩

/-- C7 amended: a RipperNode invoked without a live parent fails with the
null-parent dereference AttributeError, on each of fetch, descend and
ascend. -/
theorem c7_null_parent_attribute_error (url name : String) (tr ig : Bool) (s : CtrlState) :
    GenericRipper.fetch Option.none url tr = Except.error PyError.attributeError ∧
      GenericRipper.descend Option.none name ig = Except.error PyError.attributeError ∧
      GenericRipper.ascend Option.none s = Except.error PyError.attributeError :=
  ⟨rfl, rfl, rfl⟩

/-- C8: the numeric log-level switch maps 0 to 51, which lies strictly
above logging.CRITICAL (the most severe built-in level) and so emits
nothing at any built-in level, and maps 1..5 to CRITICAL, ERROR, WARNING,
INFO and DEBUG respectively. -/
theorem c8_init_log_level_mapping :
    Controller.init_log_level 0 = Option.some 51 ∧
      logging_CRITICAL < 51 ∧
      (∀ lvl : Nat, lvl ≤ logging_CRITICAL → log_emits 51 lvl = false) ∧
      Controller.init_log_level 1 = Option.some logging_CRITICAL ∧
      Controller.init_log_level 2 = Option.some logging_ERROR ∧
      Controller.init_log_level 3 = Option.some logging_WARNING ∧
      Controller.init_log_level 4 = Option.some logging_INFO ∧
      Controller.init_log_level 5 = Option.some logging_DEBUG := by
  refine ⟨rfl, by decide, ?_, rfl, rfl, rfl, rfl, rfl⟩
  intro lvl h
  unfold log_emits
  simp only [decide_eq_false_iff_not, not_le]
  unfold logging_CRITICAL at h
  omega

/-- Witness for c8_init_log_level_mapping: at threshold 51 even a
CRITICAL record is suppressed. -/
theorem c8_init_log_level_mapping_witness :
    log_emits 51 logging_CRITICAL = false :=
  c8_init_log_level_mapping.2.2.1 logging_CRITICAL (by decide)

/-- C9: Controller.fetch with tree false returns the session response
object itself, unchanged, whatever its status code; the function has no
error outcome and performs no status-code check. -/
theorem c9_fetch_returns_raw_page (session : String → Response) (url : String) :
    Controller.fetch session url false = PyVal.page (session url) :=
  rfl

/-- C10: on a live run, when name exists as a regular file (not a
directory), descend does not produce the boolean skip signal; it falls
into the creation branch and os.mkdir raises FileExistsError, for either
value of ignore_exists. -/
theorem c10_descend_file_conflict (s : CtrlState) (name : String) (ig : Bool)
    (hlive : s.dryrun = false)
    (hfile : (s.cwd ++ [name]) ∈ s.fs.files)
    (hnotdir : (s.cwd ++ [name]) ∉ s.fs.dirs) :
    Controller.descend s name ig = Except.error PyError.fileExistsError ∧
      ∀ b : Bool, ∀ s1 : CtrlState, Controller.descend s name ig ≠ Except.ok (b, s1) := by
  have hnd : os_path_isdir s name = false := by
    unfold os_path_isdir
    simp [hnotdir]
  have hex : pathExists s (s.cwd ++ [name]) = true := by
    unfold pathExists
    simp [hfile]
  have hmain : Controller.descend s name ig = Except.error PyError.fileExistsError := by
    unfold Controller.descend os_mkdir
    rw [hlive, hnd, hex]
    simp
  refine ⟨hmain, ?_⟩
  intro b s1
  rw [hmain]
  simp

/-- Witness for c10_descend_file_conflict at a concrete state whose root
holds a regular file f. -/
theorem c10_descend_file_conflict_witness :
    Controller.descend liveFileState "f" true = Except.error PyError.fileExistsError :=
  (c10_descend_file_conflict liveFileState "f" true rfl (by decide) (by decide)).1
